import Mathlib

/-!
Shallow embedding of `src/app.py`: the analyze → synthesize → generate
pipeline of the product-image web application.  External collaborators
(the Gemini network calls, PIL image loading, `json.loads`) are passed in
as explicit values or functions; everything the repository's own code does
with them is translated faithfully below.
-/

namespace App

/-- Python whitespace characters recognised by `str.strip()` (ASCII part;
no reply in any claim uses the non-ASCII ones). -/
def isPyWs (c : Char) : Bool :=
  c = ' ' || c = '\t' || c = '\n' || c = '\r' || c = '\x0b' || c = '\x0c'

/-- Python `str.strip()` on the underlying character list. -/
def stripL (l : List Char) : List Char :=
  ((l.dropWhile isPyWs).reverse.dropWhile isPyWs).reverse

/-- Python `s.startswith(p)` on character lists. -/
def startsWithL (l p : List Char) : Bool :=
  decide (l.take p.length = p)

/-- Python `s.endswith(p)` on character lists. -/
def endsWithL (l p : List Char) : Bool :=
  decide (l.drop (l.length - p.length) = p)

/-- Python `s[:-n]` (for `n ≤ len s`): drop the last `n` characters. -/
def dropEnd (l : List Char) (n : Nat) : List Char :=
  l.take (l.length - n)

/-- The closing/opening fence marker (three backticks), as a list. -/
def fenceB : List Char := "```".toList

/-- The tagged opening fence marker, as a list. -/
def fenceJsonB : List Char := "```json".toList

/-- The fence-stripping logic shared by `analyze_product_image`
(src/app.py lines 101-110) and `generate_image_prompts` (lines 178-184):
strip, then drop a leading tagged fence, then a leading bare fence, then a
trailing bare fence, each test on the updated text. -/
def stripFencesL (l : List Char) : List Char :=
  let t := stripL l
  let t := if startsWithL t fenceJsonB then t.drop 7 else t
  let t := if startsWithL t fenceB then t.drop 3 else t
  let t := if endsWithL t fenceB then dropEnd t 3 else t
  t

/-- String-level wrapper for the fence stripping. -/
def stripFences (s : String) : String :=
  String.mk (stripFencesL s.data)

/-- Python `str.strip()` at the string level. -/
def pyStripS (s : String) : String :=
  String.mk (stripL s.data)

/-- Python `s[:n]` on a string: the first `n` code points. -/
def pyTake (s : String) (n : Nat) : String :=
  String.mk (s.data.take n)

/-- The exact text handed to `json.loads` for a raw model reply `text`
(`json.loads(response_text.strip())` after fence stripping). -/
def parserInput (text : String) : String :=
  pyStripS (stripFences text)

/-- Python `pat in s` substring test. -/
def strContains (s : String) (pat : String) : Bool :=
  (List.range (s.data.length + 1)).any
    (fun i => decide ((s.data.drop i).take pat.data.length = pat.data))

/-- Characters that may start a syntactically valid JSON document. -/
def jsonStartChar (c : Char) : Bool :=
  c = Char.ofNat 123 || c = '[' || c = '\"' || c = '-' || c.isDigit ||
  c = 't' || c = 'f' || c = 'n'

/-- JSON values, modelling the results of Python's `json.loads`
(floats collapsed to `num`; no claim inspects numeric values). -/
inductive Json where
  | null : Json
  | bool (b : Bool) : Json
  | num (n : Int) : Json
  | str (s : String) : Json
  | arr (xs : List Json) : Json
  | obj (fields : List (String × Json)) : Json

/-- The base64 alphabet used by Python's `base64.b64encode`. -/
def b64table : List Char :=
  "ABCDEFGHIJKLMNOPQRSTUVWXYZabcdefghijklmnopqrstuvwxyz0123456789+/".toList

/-- Character for a 6-bit group. -/
def b64char (n : Nat) : Char := b64table.getD n '?'

/-- Python `base64.b64encode(bytes).decode('utf-8')` over a byte list
(each entry below 256). -/
def b64encode : List Nat → String
  | [] => ""
  | [a] =>
      String.mk [b64char (a / 4), b64char (a % 4 * 16), '=', '=']
  | [a, b] =>
      String.mk [b64char (a / 4), b64char (a % 4 * 16 + b / 16),
                 b64char (b % 16 * 4), '=']
  | a :: b :: c :: rest =>
      String.mk [b64char (a / 4), b64char (a % 4 * 16 + b / 16),
                 b64char (b % 16 * 4 + c / 64), b64char (c % 64)] ++
      b64encode rest

/-! ## Product Analyzer: `analyze_product_image` (src/app.py 47-127) -/

/-- Outcome of `analyze_product_image`: either an uncaught Python
exception propagates (`raises`) or a value is returned. -/
inductive AnalyzeOutcome where
  | raises (msg : String) : AnalyzeOutcome
  | returns (analysis : Json) : AnalyzeOutcome

/-- A run of the analyzer: its outcome plus the number of outbound
model calls it issued (effect trace of the embedding). -/
structure AnalyzeRun where
  outcome : AnalyzeOutcome
  apiCalls : Nat

/-- Error message raised by `analyze_product_image` and
`generate_image_prompts` when `GOOGLE_API_KEY` is unset. -/
def keyErrorMsg : String := "GOOGLE_API_KEY가 설정되지 않았습니다."

/-- The hard-coded fallback record built at src/app.py lines 116-125 when
`json.loads` fails; `description` is the first 200 characters of the raw
reply (`response.text[:200]`). -/
def fallbackAnalysis (text : String) : Json :=
  Json.obj
    [ ("product_name", Json.str "분석된 제품"),
      ("category", Json.str "일반 제품"),
      ("key_features", Json.arr [Json.str "고품질", Json.str "실용적", Json.str "스타일리시"]),
      ("color", Json.str "다양한 색상"),
      ("style", Json.str "모던"),
      ("target_audience", Json.str "일반 소비자"),
      ("use_cases", Json.arr [Json.str "일상 사용", Json.str "선물용", Json.str "실용적 용도"]),
      ("description", Json.str (pyTake text 200)) ]

/-- `analyze_product_image(image_path)`.  External inputs: the configured
`GOOGLE_API_KEY`, the outcome of `Image.open` (`imageLoad`), the outcome
of `model.generate_content` as the reply text (`apiCall`), and `jparse`
modelling `json.loads` (`none` = `JSONDecodeError`).  Failed loads and
failed calls re-raise (lines 65-67, 92-96); parse failure falls back
(lines 112-125). -/
def analyze_product_image (apiKey : String) (imageLoad : Except String Unit)
    (apiCall : Except String String) (jparse : String → Option Json) : AnalyzeRun :=
  if apiKey = "" then ⟨AnalyzeOutcome.raises keyErrorMsg, 0⟩
  else
    match imageLoad with
    | Except.error e => ⟨AnalyzeOutcome.raises e, 0⟩
    | Except.ok _ =>
      match apiCall with
      | Except.error e => ⟨AnalyzeOutcome.raises e, 1⟩
      | Except.ok text =>
        match jparse (parserInput text) with
        | some j => ⟨AnalyzeOutcome.returns j, 1⟩
        | none => ⟨AnalyzeOutcome.returns (fallbackAnalysis text), 1⟩

/-- Is a JSON value `null`? -/
def isNull : Json → Bool
  | Json.null => true
  | _ => false

/-- Does an object carry the key with a non-null value? -/
def jsonHasField (j : Json) (k : String) : Bool :=
  match j with
  | Json.obj fs => fs.any (fun p => decide (p.1 = k) && !(isNull p.2))
  | _ => false

/-- The 8 field names of the AnalysisRecord schema. -/
def analysisFieldNames : List String :=
  ["product_name", "category", "key_features", "color", "style",
   "target_audience", "use_cases", "description"]

/-- All 8 schema fields present and non-null. -/
def hasAll8 (j : Json) : Bool :=
  analysisFieldNames.all (jsonHasField j)

/-! ## Prompt Synthesizer: `generate_image_prompts` (src/app.py 130-195) -/

/-- The AnalysisRecord data model (all fields the synthesizer reads). -/
structure AnalysisRecord where
  product_name : String
  category : String
  key_features : List String
  color : String
  style : String
  target_audience : String
  use_cases : List String
  description : String
deriving DecidableEq

/-- Python subscript errors distinguished because only `KeyError` is
caught at src/app.py line 189. -/
inductive PyErr where
  | keyError : PyErr
  | typeError : PyErr
deriving DecidableEq

/-- Python `value[key]` for a string key: objects look the key up
(`KeyError` when absent), every other value raises `TypeError`. -/
def jGet (j : Json) (k : String) : Except PyErr Json :=
  match j with
  | Json.obj fs =>
    match fs.find? (fun p => decide (p.1 = k)) with
    | some p => Except.ok p.2
    | none => Except.error PyErr.keyError
  | _ => Except.error PyErr.typeError

/-- Python `value[:n]`: lists and strings slice, everything else raises
`TypeError` (which the synthesizer does not catch). -/
def jSlice (j : Json) (n : Nat) : Except PyErr Json :=
  match j with
  | Json.arr xs => Except.ok (Json.arr (xs.take n))
  | Json.str s => Except.ok (Json.str (pyTake s n))
  | _ => Except.error PyErr.typeError

/-- The default prompts built at src/app.py lines 192-195 when parsing
fails or the `prompts` key is absent. -/
def placeholderPrompts (analysis : AnalysisRecord) (num_images : Nat) : List Json :=
  (List.range num_images).map (fun i =>
    Json.obj
      [ ("title", Json.str ("제품 사용 장면 " ++ toString (i + 1))),
        ("description", Json.str (analysis.product_name ++ "을(를) 사용하는 모습")) ])

/-- Outcome of `generate_image_prompts`. -/
inductive SynthOutcome where
  | raises (msg : String) : SynthOutcome
  | returns (v : Json) : SynthOutcome

/-- `generate_image_prompts(analysis, num_images)`.  `apiCall` is the
model reply (errors re-raise, lines 168-175); `jparse` models
`json.loads`.  On parse success the code returns
`prompts_data['prompts'][:num_images]`; `JSONDecodeError` and `KeyError`
fall back to placeholder prompts (lines 189-195); a `TypeError` from
subscripting a non-object or slicing a non-sequence is uncaught. -/
def generate_image_prompts (apiKey : String) (analysis : AnalysisRecord)
    (num_images : Nat) (apiCall : Except String String)
    (jparse : String → Option Json) : SynthOutcome :=
  if apiKey = "" then SynthOutcome.raises keyErrorMsg
  else
    match apiCall with
    | Except.error e => SynthOutcome.raises e
    | Except.ok text =>
      match jparse (parserInput text) with
      | none => SynthOutcome.returns (Json.arr (placeholderPrompts analysis num_images))
      | some j =>
        match jGet j "prompts" with
        | Except.error PyErr.keyError =>
            SynthOutcome.returns (Json.arr (placeholderPrompts analysis num_images))
        | Except.error PyErr.typeError => SynthOutcome.raises "TypeError"
        | Except.ok v =>
          match jSlice v num_images with
          | Except.ok sliced => SynthOutcome.returns sliced
          | Except.error _ => SynthOutcome.raises "TypeError"

/-! ## HTTP clamp: the `/generate` route (src/app.py 399-404) -/

/-- The count computation at src/app.py line 404:
`num_images = min(int(data.get('num_images', 10)), 10)`. -/
def clampNumImages (requested : Int) : Int :=
  min requested 10

/-! ## Image Generation Driver: `generate_images_with_gemini`
(src/app.py 198-355) -/

/-- A scene prompt as consumed by the driver (`prompt_data['title']`,
`prompt_data['description']`). -/
structure ScenePrompt where
  title : String
  description : String
deriving DecidableEq

/-- `part.inline_data.data`: either raw bytes (then base64-encoded) or an
already-encoded string (passed through), or absent. -/
inductive ImageData where
  | bytesD (b : List Nat) : ImageData
  | strD (s : String) : ImageData
deriving DecidableEq

/-- The `inline_data` attribute of a response part. -/
structure InlineData where
  data : Option ImageData
deriving DecidableEq

/-- One part of a candidate's content; `inline_data = none` models both a
missing attribute and a `None` value. -/
structure RespPart where
  inline_data : Option InlineData
deriving DecidableEq

/-- A candidate's content; `parts = none` models a missing/`None`
attribute (an empty list behaves identically: the extraction loop finds
nothing). -/
structure RespContent where
  parts : Option (List RespPart)
deriving DecidableEq

/-- A response candidate: `finish_reason` is the `str()` of the reported
reason, `content = none` models a `None` content. -/
structure Candidate where
  finish_reason : String
  content : Option RespContent
deriving DecidableEq

/-- A backend response; an absent/`None`/empty `candidates` attribute is
the empty list (all three take the same branch at line 250). -/
structure GenResponse where
  candidates : List Candidate
deriving DecidableEq

/-- Outcome of one `client.models.generate_content` call: either the call
raised (with Python exception type name and message) or it returned a
response object (`none` = a falsy/`None` response). -/
inductive CallOutcome where
  | raises (etype : String) (emsg : String) : CallOutcome
  | response (r : Option GenResponse) : CallOutcome
deriving DecidableEq

/-- One entry of the `generated_images` list.  `type` and `data` are
present exactly on the success dict, `message` exactly on failure dicts. -/
structure GenerationResult where
  id : Nat
  title : String
  prompt : String
  status : String
  type : Option String
  data : Option String
  message : Option String
deriving DecidableEq

/-- The safety-specific user-facing message (src/app.py line 270). -/
def safetyMsg : String := "안전 필터에 의해 차단되었습니다. 프롬프트를 수정해주세요."

/-- The generic no-content message (src/app.py line 265). -/
def noContentMsg (fr : String) : String :=
  "콘텐츠가 생성되지 않았습니다. Finish reason: " ++ fr

/-- The no-image-payload failure message (src/app.py line 322). -/
def noImageDataMsg : String := "이미지 생성에 실패했습니다. (이미지 데이터 없음)"

/-- The no-response failure message (src/app.py line 332). -/
def noResponseMsg : String := "이미지 생성에 실패했습니다. (응답 없음)"

/-- Python truthiness of the extracted `image_data` (line 292):
`None`, empty bytes and the empty string are falsy. -/
def truthyImageData : Option ImageData → Bool
  | none => false
  | some (ImageData.bytesD b) => decide (b ≠ [])
  | some (ImageData.strD s) => decide (s ≠ "")

/-- The extraction loop at src/app.py lines 283-288: take the `data` of
the first part whose `inline_data` is truthy. -/
def extractImageData (parts : List RespPart) : Option ImageData :=
  match parts.find? (fun part => part.inline_data.isSome) with
  | none => none
  | some part => part.inline_data.bind (fun d => d.data)

/-- One iteration of the driver loop (the body of
`for idx, prompt_data in enumerate(prompts)`, src/app.py 227-353):
classify one call outcome and build the single result dict appended for
this prompt. -/
def processItem (idx : Nat) (p : ScenePrompt) (o : CallOutcome) : GenerationResult :=
  match o with
  | CallOutcome.raises etype emsg =>
      { id := idx + 1, title := p.title, prompt := p.description,
        status := "error", type := none, data := none,
        message := some (etype ++ ": " ++ emsg) }
  | CallOutcome.response none =>
      { id := idx + 1, title := p.title, prompt := p.description,
        status := "error", type := none, data := none,
        message := some noResponseMsg }
  | CallOutcome.response (some resp) =>
    match resp.candidates with
    | [] =>
        { id := idx + 1, title := p.title, prompt := p.description,
          status := "error", type := none, data := none,
          message := some noResponseMsg }
    | candidate :: _ =>
      match candidate.content with
      | none =>
          let msg := if strContains candidate.finish_reason "SAFETY" then safetyMsg
                     else noContentMsg candidate.finish_reason
          { id := idx + 1, title := p.title, prompt := p.description,
            status := "error", type := none, data := none,
            message := some msg }
      | some content =>
        let image_data : Option ImageData :=
          match content.parts with
          | none => none
          | some parts => extractImageData parts
        if truthyImageData image_data then
          let base64_image : String :=
            match image_data with
            | some (ImageData.bytesD b) => b64encode b
            | some (ImageData.strD s) => s
            | none => ""
          { id := idx + 1, title := p.title, prompt := p.description,
            status := "ok", type := some "base64",
            data := some ("data:image/png;base64," ++ base64_image),
            message := none }
        else
          { id := idx + 1, title := p.title, prompt := p.description,
            status := "error", type := none, data := none,
            message := some noImageDataMsg }

/-- The driver loop: one result appended per prompt, in order, with
`call i` the outcome of the backend call for the prompt at index `i`. -/
def driverLoop (call : Nat → CallOutcome) : Nat → List ScenePrompt → List GenerationResult
  | _, [] => []
  | idx, p :: rest => processItem idx p (call idx) :: driverLoop call (idx + 1) rest

/-- The full result list accumulated by the loop starting at index 0. -/
def driverResults (prompts : List ScenePrompt) (call : Nat → CallOutcome) : List GenerationResult :=
  driverLoop call 0 prompts

/-- Outcome of `generate_images_with_gemini`. -/
inductive DriverOutcome where
  | raises (msg : String) : DriverOutcome
  | returns (results : List GenerationResult) : DriverOutcome
deriving DecidableEq

/-- Error message raised by the driver when `GOOGLE_API_KEY` is unset
(src/app.py line 204). -/
def driverKeyErrorMsg : String :=
  "GOOGLE_API_KEY가 설정되지 않았습니다. .env 파일을 확인하세요."

/-- `generate_images_with_gemini(analysis, prompts, image_path)`.
External inputs: the API key, the outcome of `genai_client.Client(...)`
(`clientInit`, failure wrapped in a `ValueError` at lines 215-220), the
outcome of `Image.open(image_path)` (`imageLoad`, line 225, not wrapped —
its exception propagates), and the per-index backend call outcomes.  The
function body never writes to the generated-files store and never builds
a `url`-typed result; every success is an inline base64 data URI. -/
def generate_images_with_gemini (apiKey : String)
    (clientInit : Except String Unit) (imageLoad : Except String Unit)
    (prompts : List ScenePrompt) (call : Nat → CallOutcome) : DriverOutcome :=
  if apiKey = "" then DriverOutcome.raises driverKeyErrorMsg
  else
    match clientInit with
    | Except.error e =>
        DriverOutcome.raises ("Gemini 클라이언트를 초기화할 수 없습니다: " ++ e)
    | Except.ok _ =>
      match imageLoad with
      | Except.error e => DriverOutcome.raises e
      | Except.ok _ => DriverOutcome.returns (driverResults prompts call)

/-! ## Helper lemmas about the driver loop -/

theorem driverLoop_length (call : Nat → CallOutcome) (k : Nat) (ps : List ScenePrompt) :
    (driverLoop call k ps).length = ps.length := by
  induction ps generalizing k with
  | nil => rfl
  | cons p rest ih => simpa [driverLoop] using ih (k + 1)

theorem driverLoop_getElem? (call : Nat → CallOutcome) (k : Nat) (ps : List ScenePrompt)
    (i : Nat) (p : ScenePrompt) (hp : ps[i]? = some p) :
    (driverLoop call k ps)[i]? = some (processItem (k + i) p (call (k + i))) := by
  induction ps generalizing k i with
  | nil => simp at hp
  | cons q rest ih =>
    cases i with
    | zero =>
      simp only [List.getElem?_cons_zero, Option.some.injEq] at hp
      subst hp
      simp [driverLoop]
    | succ n =>
      have h2 := ih (k + 1) n (by simpa using hp)
      have hkn : k + 1 + n = k + (n + 1) := by omega
      rw [hkn] at h2
      simpa [driverLoop] using h2

theorem driverLoop_mem (call : Nat → CallOutcome) (k : Nat) (ps : List ScenePrompt)
    (r : GenerationResult) (h : r ∈ driverLoop call k ps) :
    ∃ idx p, r = processItem idx p (call idx) := by
  induction ps generalizing k with
  | nil => simp [driverLoop] at h
  | cons q rest ih =>
    simp only [driverLoop, List.mem_cons] at h
    rcases h with h | h
    · exact ⟨k, q, h⟩
    · exact ih (k + 1) h

theorem processItem_fields (idx : Nat) (p : ScenePrompt) (o : CallOutcome) :
    (processItem idx p o).id = idx + 1 ∧ (processItem idx p o).title = p.title ∧
    (processItem idx p o).prompt = p.description := by
  unfold processItem
  rcases o with ⟨e, m⟩ | ⟨_ | ⟨cands⟩⟩
  · exact ⟨rfl, rfl, rfl⟩
  · exact ⟨rfl, rfl, rfl⟩
  · rcases cands with _ | ⟨c, rest⟩
    · exact ⟨rfl, rfl, rfl⟩
    · rcases c with ⟨fr, _ | content⟩
      · exact ⟨rfl, rfl, rfl⟩
      · dsimp only
        split
        · exact ⟨rfl, rfl, rfl⟩
        · exact ⟨rfl, rfl, rfl⟩

theorem processItem_ok_shape (idx : Nat) (p : ScenePrompt) (o : CallOutcome) :
    ((processItem idx p o).type = some "base64" ∨ (processItem idx p o).type = none) ∧
    ((processItem idx p o).status = "ok" →
      (processItem idx p o).type = some "base64" ∧
      ∃ tail, (processItem idx p o).data = some ("data:image/png;base64," ++ tail)) := by
  unfold processItem
  rcases o with ⟨e, m⟩ | ⟨_ | ⟨cands⟩⟩
  · exact ⟨Or.inr rfl, fun h => absurd (show ("error" : String) = "ok" from h) (by decide)⟩
  · exact ⟨Or.inr rfl, fun h => absurd (show ("error" : String) = "ok" from h) (by decide)⟩
  · rcases cands with _ | ⟨c, rest⟩
    · exact ⟨Or.inr rfl, fun h => absurd (show ("error" : String) = "ok" from h) (by decide)⟩
    · rcases c with ⟨fr, _ | content⟩
      · exact ⟨Or.inr rfl, fun h => absurd (show ("error" : String) = "ok" from h) (by decide)⟩
      · dsimp only
        split
        · exact ⟨Or.inl rfl, fun _ => ⟨rfl, ⟨_, rfl⟩⟩⟩
        · exact ⟨Or.inr rfl, fun h => absurd (show ("error" : String) = "ok" from h) (by decide)⟩

/-! ## Claim theorems -/

/-- C1: with the precondition satisfied (API key configured, client
initialisable, reference image loadable), `generate_images_with_gemini`
on `N` prompts returns a list of exactly `N` results, in input order,
with `results[i].id = i + 1` and result `i` carrying prompt `i`'s title
and description; no item outcome skips or duplicates a result. -/
theorem c1_one_result_per_prompt (apiKey : String) (hk : apiKey ≠ "")
    (prompts : List ScenePrompt) (call : Nat → CallOutcome) :
    generate_images_with_gemini apiKey (Except.ok ()) (Except.ok ()) prompts call =
      DriverOutcome.returns (driverResults prompts call) ∧
    (driverResults prompts call).length = prompts.length ∧
    ∀ i : Nat, i < prompts.length →
      ∃ r, (driverResults prompts call)[i]? = some r ∧
        r.id = i + 1 ∧ prompts[i]? = some ⟨r.title, r.prompt⟩ := by
  refine ⟨by simp [generate_images_with_gemini, hk], driverLoop_length call 0 prompts, ?_⟩
  intro i hi
  have hp : prompts[i]? = some (prompts.get ⟨i, hi⟩) := List.getElem?_eq_getElem hi
  set p := prompts.get ⟨i, hi⟩ with hpdef
  have hg := driverLoop_getElem? call 0 prompts i p hp
  rw [Nat.zero_add] at hg
  obtain ⟨hid, hti, hpr⟩ := processItem_fields i p (call i)
  refine ⟨processItem i p (call i), hg, hid, ?_⟩
  rw [hp, hti, hpr]

/-- C1 witness: the theorem instantiated at a concrete key and a concrete
two-prompt batch whose backend returns no response. -/
theorem c1_witness :
    ("k" : String) ≠ "" ∧
    (generate_images_with_gemini "k" (Except.ok ()) (Except.ok ())
        [⟨"t1", "d1"⟩, ⟨"t2", "d2"⟩] (fun _ => CallOutcome.response none) =
      DriverOutcome.returns (driverResults [⟨"t1", "d1"⟩, ⟨"t2", "d2"⟩]
        (fun _ => CallOutcome.response none)) ∧
    (driverResults [⟨"t1", "d1"⟩, ⟨"t2", "d2"⟩]
        (fun _ => CallOutcome.response none)).length =
      ([⟨"t1", "d1"⟩, ⟨"t2", "d2"⟩] : List ScenePrompt).length ∧
    ∀ i : Nat, i < ([⟨"t1", "d1"⟩, ⟨"t2", "d2"⟩] : List ScenePrompt).length →
      ∃ r, (driverResults [⟨"t1", "d1"⟩, ⟨"t2", "d2"⟩]
          (fun _ => CallOutcome.response none))[i]? = some r ∧
        r.id = i + 1 ∧
        ([⟨"t1", "d1"⟩, ⟨"t2", "d2"⟩] : List ScenePrompt)[i]? = some ⟨r.title, r.prompt⟩) :=
  ⟨by decide, c1_one_result_per_prompt "k" (by decide) _ _⟩

/-- C2 counterexample: with the API key configured, the driver still
raises when the reference product image fails to load (src/app.py line
225 is outside every try block), refuting "never raises except when the
API key is missing". -/
theorem c2_counterexample :
    generate_images_with_gemini "key" (Except.ok ())
        (Except.error "cannot identify image file") []
        (fun _ => CallOutcome.response none) =
      DriverOutcome.raises "cannot identify image file" ∧
    ("key" : String) ≠ "" := by
  exact ⟨rfl, by decide⟩

/-- C2 amended: `generate_images_with_gemini` returns a result list — and
hence never raises — exactly when the API key is nonempty, the client
initialises, and the reference image loads; in every other case it raises
before any per-item generation request (none of the raising branches
consults the per-item call outcomes). -/
theorem c2_total_up_to_preconditions (apiKey : String)
    (clientInit imageLoad : Except String Unit) (prompts : List ScenePrompt)
    (call : Nat → CallOutcome) :
    (∃ rs, generate_images_with_gemini apiKey clientInit imageLoad prompts call =
        DriverOutcome.returns rs) ↔
      (apiKey ≠ "" ∧ clientInit = Except.ok () ∧ imageLoad = Except.ok ()) := by
  constructor
  · rintro ⟨rs, h⟩
    by_cases hk : apiKey = ""
    · simp [generate_images_with_gemini, hk] at h
    · rcases clientInit with e | u
      · simp [generate_images_with_gemini, hk] at h
      · rcases imageLoad with e | v
        · simp [generate_images_with_gemini, hk] at h
        · exact ⟨hk, rfl, rfl⟩
  · rintro ⟨hk, hc, hi⟩
    subst hc; subst hi
    exact ⟨driverResults prompts call, by simp [generate_images_with_gemini, hk]⟩

/-- C3 counterexample: a requested count of 0 is not raised to 1 — the
route computes `min(int(...), 10)` with no lower clamp (src/app.py line
404), so the value after clamping is still below 1. -/
theorem c3_counterexample : clampNumImages 0 < 1 := by decide

/-- C3 amended: the `/generate` route only clamps the caller-supplied
count from above to 10; any count at most 10 — including 0 and negative
values — passes through unchanged. -/
theorem c3_upper_clamp_only (n : Int) :
    clampNumImages n ≤ 10 ∧ (n ≤ 10 → clampNumImages n = n) :=
  ⟨min_le_right n 10, fun h => min_eq_left h⟩

/-- C3 witness: the amended theorem evaluated at a requested count of 0. -/
theorem c3_witness : clampNumImages 0 ≤ 10 ∧ ((0 : Int) ≤ 10) ∧ clampNumImages 0 = 0 :=
  ⟨(c3_upper_clamp_only 0).1, by decide, (c3_upper_clamp_only 0).2 (by decide)⟩

/-- C8: with no API key configured, `analyze_product_image` raises the
configuration error immediately and issues zero model calls, whatever the
image-load, network and parser behaviours would have been. -/
theorem c8_fails_fast_without_key (imageLoad : Except String Unit)
    (apiCall : Except String String) (jparse : String → Option Json) :
    (analyze_product_image "" imageLoad apiCall jparse).outcome =
      AnalyzeOutcome.raises keyErrorMsg ∧
    (analyze_product_image "" imageLoad apiCall jparse).apiCalls = 0 :=
  ⟨rfl, rfl⟩

/-- C4 counterexample: with count 2 and a reply that parses to a
`prompts` list holding a single item, `generate_image_prompts` returns
that single item — output length 1, not 2 — because the code truncates
with `[:num_images]` and never pads a short list. -/
theorem c4_counterexample :
    generate_image_prompts "k" ⟨"제품", "cat", [], "c", "s", "t", [], "d"⟩ 2
        (Except.ok "reply")
        (fun _ => some (Json.obj [("prompts", Json.arr [Json.str "scene one"])])) =
      SynthOutcome.returns (Json.arr [Json.str "scene one"]) ∧
    ([Json.str "scene one"] : List Json).length ≠ 2 :=
  ⟨rfl, by decide⟩

/-- C4 amended: when the reply parses to a value whose `prompts` lookup
yields a list, the synthesizer returns its first `min(count, returned)`
items in order (truncating when more, silently shorter when fewer); when
parsing fails, or the parsed value's `prompts` lookup raises `KeyError`
(the key is absent), it returns exactly `count` placeholder prompts.  The
output length equals `count` only in the fallback cases or when the model
returned at least `count` items. -/
theorem c4_synthesize_length (apiKey : String) (hk : apiKey ≠ "")
    (analysis : AnalysisRecord) (n : Nat) (text : String)
    (jparse : String → Option Json) :
    (∀ j xs, jparse (parserInput text) = some j →
      jGet j "prompts" = Except.ok (Json.arr xs) →
      generate_image_prompts apiKey analysis n (Except.ok text) jparse =
        SynthOutcome.returns (Json.arr (xs.take n)) ∧
      (xs.take n).length = min n xs.length) ∧
    (jparse (parserInput text) = none →
      generate_image_prompts apiKey analysis n (Except.ok text) jparse =
        SynthOutcome.returns (Json.arr (placeholderPrompts analysis n)) ∧
      (placeholderPrompts analysis n).length = n) ∧
    (∀ j, jparse (parserInput text) = some j →
      jGet j "prompts" = Except.error PyErr.keyError →
      generate_image_prompts apiKey analysis n (Except.ok text) jparse =
        SynthOutcome.returns (Json.arr (placeholderPrompts analysis n)) ∧
      (placeholderPrompts analysis n).length = n) := by
  refine ⟨?_, ?_, ?_⟩
  · intro j xs hp hget
    refine ⟨?_, List.length_take n xs⟩
    unfold generate_image_prompts
    rw [if_neg hk]
    dsimp only
    rw [hp]
    dsimp only
    rw [hget]
    rfl
  · intro hp
    refine ⟨?_, by simp [placeholderPrompts]⟩
    unfold generate_image_prompts
    rw [if_neg hk]
    dsimp only
    rw [hp]
  · intro j hp hget
    refine ⟨?_, by simp [placeholderPrompts]⟩
    unfold generate_image_prompts
    rw [if_neg hk]
    dsimp only
    rw [hp]
    dsimp only
    rw [hget]

/-- C4 witness: the amended theorem applied at a concrete analysis and
count 1, for a parser returning a one-item `prompts` list, a parser that
fails, and a parser returning an object without the `prompts` key. -/
theorem c4_witness :
    (generate_image_prompts "k" ⟨"p", "c", [], "c", "s", "t", [], "d"⟩ 1
        (Except.ok "t") (fun _ => some (Json.obj [("prompts", Json.arr [Json.str "a"])])) =
      SynthOutcome.returns (Json.arr ([Json.str "a"].take 1)) ∧
      (([Json.str "a"] : List Json).take 1).length = min 1 ([Json.str "a"] : List Json).length) ∧
    (generate_image_prompts "k" ⟨"p", "c", [], "c", "s", "t", [], "d"⟩ 1
        (Except.ok "t") (fun _ => none) =
      SynthOutcome.returns
        (Json.arr (placeholderPrompts ⟨"p", "c", [], "c", "s", "t", [], "d"⟩ 1)) ∧
      (placeholderPrompts ⟨"p", "c", [], "c", "s", "t", [], "d"⟩ 1).length = 1) ∧
    (generate_image_prompts "k" ⟨"p", "c", [], "c", "s", "t", [], "d"⟩ 1
        (Except.ok "t") (fun _ => some (Json.obj [("other", Json.null)])) =
      SynthOutcome.returns
        (Json.arr (placeholderPrompts ⟨"p", "c", [], "c", "s", "t", [], "d"⟩ 1)) ∧
      (placeholderPrompts ⟨"p", "c", [], "c", "s", "t", [], "d"⟩ 1).length = 1) :=
  ⟨(c4_synthesize_length "k" (by decide) ⟨"p", "c", [], "c", "s", "t", [], "d"⟩ 1 "t"
      (fun _ => some (Json.obj [("prompts", Json.arr [Json.str "a"])]))).1
      (Json.obj [("prompts", Json.arr [Json.str "a"])]) [Json.str "a"] rfl rfl,
   (c4_synthesize_length "k" (by decide) ⟨"p", "c", [], "c", "s", "t", [], "d"⟩ 1 "t"
      (fun _ => none)).2.1 rfl,
   (c4_synthesize_length "k" (by decide) ⟨"p", "c", [], "c", "s", "t", [], "d"⟩ 1 "t"
      (fun _ => some (Json.obj [("other", Json.null)]))).2.2
      (Json.obj [("other", Json.null)]) rfl rfl⟩

/-- C5 counterexample: a model reply that is valid JSON but an empty
object passes the parse, and `analyze_product_image` returns it as-is —
none of the 8 schema fields is present.  The parser here models
`json.loads` at the concrete input `"{}"` only. -/
theorem c5_counterexample :
    (analyze_product_image "k" (Except.ok ()) (Except.ok "\x7b\x7d")
        (fun s => if s = "\x7b\x7d" then some (Json.obj []) else none)).outcome =
      AnalyzeOutcome.returns (Json.obj []) ∧
    hasAll8 (Json.obj []) = false :=
  ⟨rfl, rfl⟩

/-- C5 amended: the hard-coded fallback record always carries all 8
schema fields non-null, and on parse failure the analyzer returns it; but
on a successful parse the analyzer returns the parsed value unvalidated,
whatever its shape. -/
theorem c5_fields_guarantee (apiKey : String) (hk : apiKey ≠ "") (text : String)
    (jparse : String → Option Json) :
    hasAll8 (fallbackAnalysis text) = true ∧
    (jparse (parserInput text) = none →
      (analyze_product_image apiKey (Except.ok ()) (Except.ok text) jparse).outcome =
        AnalyzeOutcome.returns (fallbackAnalysis text)) ∧
    (∀ j, jparse (parserInput text) = some j →
      (analyze_product_image apiKey (Except.ok ()) (Except.ok text) jparse).outcome =
        AnalyzeOutcome.returns j) := by
  refine ⟨rfl, ?_, ?_⟩
  · intro hp
    unfold analyze_product_image
    rw [if_neg hk]
    dsimp only
    rw [hp]
  · intro j hp
    unfold analyze_product_image
    rw [if_neg hk]
    dsimp only
    rw [hp]

/-- C5 witness: the amended theorem at a concrete reply, for a parser
that fails and for one returning the empty object. -/
theorem c5_witness :
    hasAll8 (fallbackAnalysis "oops") = true ∧
    (analyze_product_image "k" (Except.ok ()) (Except.ok "oops")
        (fun _ => none)).outcome = AnalyzeOutcome.returns (fallbackAnalysis "oops") ∧
    (analyze_product_image "k" (Except.ok ()) (Except.ok "oops")
        (fun _ => some (Json.obj []))).outcome = AnalyzeOutcome.returns (Json.obj []) :=
  ⟨(c5_fields_guarantee "k" (by decide) "oops" (fun _ => none)).1,
   (c5_fields_guarantee "k" (by decide) "oops" (fun _ => none)).2.1 rfl,
   (c5_fields_guarantee "k" (by decide) "oops" (fun _ => some (Json.obj []))).2.2
      (Json.obj []) rfl⟩

/-- C6 counterexample: two distinct unparseable replies yield two
distinct fallback records — the fallback's `description` is
`response.text[:200]` (src/app.py line 124), so the payload is not the
same for every failing reply. -/
theorem c6_counterexample :
    (analyze_product_image "k" (Except.ok ()) (Except.ok "replyA")
        (fun _ => none)).outcome = AnalyzeOutcome.returns (fallbackAnalysis "replyA") ∧
    (analyze_product_image "k" (Except.ok ()) (Except.ok "replyB")
        (fun _ => none)).outcome = AnalyzeOutcome.returns (fallbackAnalysis "replyB") ∧
    fallbackAnalysis "replyA" ≠ fallbackAnalysis "replyB" := by
  refine ⟨rfl, rfl, ?_⟩
  intro h
  simp [fallbackAnalysis, pyTake] at h

/-- C6 amended: on parse failure the analyzer substitutes a deterministic
fallback record — 7 of its 8 fields fixed constants, the `description`
field the first 200 characters of the raw reply — and never propagates
the parse error. -/
theorem c6_fallback_on_parse_failure (apiKey : String) (hk : apiKey ≠ "")
    (text : String) (jparse : String → Option Json)
    (hp : jparse (parserInput text) = none) :
    (analyze_product_image apiKey (Except.ok ()) (Except.ok text) jparse).outcome =
      AnalyzeOutcome.returns (fallbackAnalysis text) ∧
    fallbackAnalysis text =
      Json.obj
        [ ("product_name", Json.str "분석된 제품"),
          ("category", Json.str "일반 제품"),
          ("key_features", Json.arr [Json.str "고품질", Json.str "실용적", Json.str "스타일리시"]),
          ("color", Json.str "다양한 색상"),
          ("style", Json.str "모던"),
          ("target_audience", Json.str "일반 소비자"),
          ("use_cases", Json.arr [Json.str "일상 사용", Json.str "선물용", Json.str "실용적 용도"]),
          ("description", Json.str (pyTake text 200)) ] := by
  constructor
  · unfold analyze_product_image
    rw [if_neg hk]
    dsimp only
    rw [hp]
  · rfl

/-- C6 witness: the amended theorem at a concrete unparseable reply. -/
theorem c6_witness :
    (analyze_product_image "k" (Except.ok ()) (Except.ok "not json")
        (fun _ => none)).outcome = AnalyzeOutcome.returns (fallbackAnalysis "not json") :=
  (c6_fallback_on_parse_failure "k" (by decide) "not json" (fun _ => none) rfl).1

/-- C7 counterexample: a response whose single candidate carries the
safety-block finish reason but also carries content with an image part is
classified as a success (`status = "ok"`), refuting the claim that a
safety-block completion reason always yields an error item. -/
theorem c7_counterexample :
    generate_images_with_gemini "key" (Except.ok ()) (Except.ok ()) [⟨"t", "d"⟩]
        (fun _ => CallOutcome.response (some ⟨[⟨"FinishReason.SAFETY",
          some ⟨some [⟨some ⟨some (ImageData.strD "xyz")⟩⟩]⟩⟩]⟩)) =
      DriverOutcome.returns
        [⟨1, "t", "d", "ok", some "base64", some "data:image/png;base64,xyz", none⟩] ∧
    strContains "FinishReason.SAFETY" "SAFETY" = true := by
  exact ⟨rfl, by decide⟩

/-- C7 amended: when the backend's response for item `i` of `N` carries a
safety-block completion reason and no generated content, the result list
still has length `N`, item `i` has status `error` with the
safety-specific message (distinct from both generic failure messages),
and every other item's result is exactly the classification of its own
prompt and its own call outcome. -/
theorem c7_safety_block (apiKey : String) (hk : apiKey ≠ "")
    (prompts : List ScenePrompt) (call : Nat → CallOutcome) (i : Nat)
    (hi : i < prompts.length) (fr : String)
    (hcall : call i = CallOutcome.response (some ⟨[⟨fr, none⟩]⟩))
    (hfr : strContains fr "SAFETY" = true) :
    generate_images_with_gemini apiKey (Except.ok ()) (Except.ok ()) prompts call =
      DriverOutcome.returns (driverResults prompts call) ∧
    (driverResults prompts call).length = prompts.length ∧
    (∃ r, (driverResults prompts call)[i]? = some r ∧ r.status = "error" ∧
      r.message = some safetyMsg) ∧
    safetyMsg ≠ noImageDataMsg ∧ safetyMsg ≠ noResponseMsg ∧
    ∀ j p, j ≠ i → prompts[j]? = some p →
      (driverResults prompts call)[j]? = some (processItem j p (call j)) := by
  refine ⟨by simp [generate_images_with_gemini, hk], driverLoop_length call 0 prompts,
    ?_, by decide, by decide, ?_⟩
  · have hp : prompts[i]? = some (prompts.get ⟨i, hi⟩) := List.getElem?_eq_getElem hi
    have hg := driverLoop_getElem? call 0 prompts i (prompts.get ⟨i, hi⟩) hp
    rw [Nat.zero_add] at hg
    refine ⟨processItem i (prompts.get ⟨i, hi⟩) (call i), hg, ?_⟩
    rw [hcall]
    unfold processItem
    dsimp only
    rw [if_pos hfr]
    exact ⟨rfl, rfl⟩
  · intro j p hj hp
    have hg := driverLoop_getElem? call 0 prompts j p hp
    rwa [Nat.zero_add] at hg

/-- C7 witness: the amended theorem at a concrete three-prompt batch with
a safety block on item index 1. -/
theorem c7_witness :
    generate_images_with_gemini "k" (Except.ok ()) (Except.ok ())
        [⟨"t1", "d1"⟩, ⟨"t2", "d2"⟩, ⟨"t3", "d3"⟩]
        (fun j => if j = 1 then
            CallOutcome.response (some ⟨[⟨"FinishReason.SAFETY", none⟩]⟩)
          else CallOutcome.response none) =
      DriverOutcome.returns (driverResults [⟨"t1", "d1"⟩, ⟨"t2", "d2"⟩, ⟨"t3", "d3"⟩]
        (fun j => if j = 1 then
            CallOutcome.response (some ⟨[⟨"FinishReason.SAFETY", none⟩]⟩)
          else CallOutcome.response none)) ∧
    (driverResults [⟨"t1", "d1"⟩, ⟨"t2", "d2"⟩, ⟨"t3", "d3"⟩]
        (fun j => if j = 1 then
            CallOutcome.response (some ⟨[⟨"FinishReason.SAFETY", none⟩]⟩)
          else CallOutcome.response none)).length =
      ([⟨"t1", "d1"⟩, ⟨"t2", "d2"⟩, ⟨"t3", "d3"⟩] : List ScenePrompt).length ∧
    (∃ r, (driverResults [⟨"t1", "d1"⟩, ⟨"t2", "d2"⟩, ⟨"t3", "d3"⟩]
        (fun j => if j = 1 then
            CallOutcome.response (some ⟨[⟨"FinishReason.SAFETY", none⟩]⟩)
          else CallOutcome.response none))[1]? = some r ∧ r.status = "error" ∧
      r.message = some safetyMsg) ∧
    safetyMsg ≠ noImageDataMsg ∧ safetyMsg ≠ noResponseMsg ∧
    ∀ j p, j ≠ 1 →
      ([⟨"t1", "d1"⟩, ⟨"t2", "d2"⟩, ⟨"t3", "d3"⟩] : List ScenePrompt)[j]? = some p →
      (driverResults [⟨"t1", "d1"⟩, ⟨"t2", "d2"⟩, ⟨"t3", "d3"⟩]
        (fun j => if j = 1 then
            CallOutcome.response (some ⟨[⟨"FinishReason.SAFETY", none⟩]⟩)
          else CallOutcome.response none))[j]? =
        some (processItem j p (if j = 1 then
            CallOutcome.response (some ⟨[⟨"FinishReason.SAFETY", none⟩]⟩)
          else CallOutcome.response none)) :=
  c7_safety_block "k" (by decide) [⟨"t1", "d1"⟩, ⟨"t2", "d2"⟩, ⟨"t3", "d3"⟩]
    (fun j => if j = 1 then
        CallOutcome.response (some ⟨[⟨"FinishReason.SAFETY", none⟩]⟩)
      else CallOutcome.response none)
    1 (by decide) "FinishReason.SAFETY" rfl (by decide)

/-- C10: every result the driver returns with status `ok` has type
`base64` and a data string beginning with `data:image/png;base64,`; no
result ever has type `url` (the driver builds only inline data URIs and
performs no write to the generated-files store — the embedded function is
pure and returns only the result list). -/
theorem c10_ok_results_are_base64 (apiKey : String)
    (clientInit imageLoad : Except String Unit) (prompts : List ScenePrompt)
    (call : Nat → CallOutcome) (rs : List GenerationResult)
    (hret : generate_images_with_gemini apiKey clientInit imageLoad prompts call =
      DriverOutcome.returns rs) (r : GenerationResult) (hmem : r ∈ rs) :
    r.type ≠ some "url" ∧
    (r.status = "ok" →
      r.type = some "base64" ∧
      ∃ tail, r.data = some ("data:image/png;base64," ++ tail)) := by
  have hrs : rs = driverResults prompts call := by
    by_cases hk : apiKey = ""
    · simp [generate_images_with_gemini, hk] at hret
    · rcases clientInit with e | u
      · simp [generate_images_with_gemini, hk] at hret
      · rcases imageLoad with e | v
        · simp [generate_images_with_gemini, hk] at hret
        · simpa [generate_images_with_gemini, hk] using hret.symm
  subst hrs
  obtain ⟨idx, p, hr⟩ := driverLoop_mem call 0 prompts r hmem
  subst hr
  obtain ⟨hty, hok⟩ := processItem_ok_shape idx p (call idx)
  refine ⟨?_, hok⟩
  rcases hty with h | h <;> rw [h] <;> simp

/-! ## Helper lemmas for the fence-stripping theorem (C9) -/

/-- The backtick character. -/
def btick : Char := Char.ofNat 96

theorem fenceB_eq : fenceB = [btick, btick, btick] := by decide

theorem fenceJsonB_eq :
    fenceJsonB = btick :: btick :: btick :: 'j' :: 's' :: 'o' :: 'n' :: [] := by decide

theorem stripL_sandwich (ws1 ws2 X : List Char)
    (h1 : ∀ c ∈ ws1, isPyWs c = true) (h2 : ∀ c ∈ ws2, isPyWs c = true)
    (hhd : ∀ a, X.head? = some a → isPyWs a = false)
    (hlast : ∀ a, X.reverse.head? = some a → isPyWs a = false)
    (hne : X ≠ []) :
    stripL (ws1 ++ (X ++ ws2)) = X := by
  obtain ⟨a, t, rfl⟩ : ∃ a t, X = a :: t := by
    rcases X with _ | ⟨a, t⟩
    · exact absurd rfl hne
    · exact ⟨a, t, rfl⟩
  obtain ⟨b, u, hr⟩ : ∃ b u, (a :: t).reverse = b :: u := by
    rcases hx : (a :: t).reverse with _ | ⟨b, u⟩
    · have := congrArg List.length hx
      simp at this
    · exact ⟨b, u, rfl⟩
  have ha : isPyWs a = false := hhd a rfl
  have hb : isPyWs b = false := hlast b (by rw [hr]; rfl)
  unfold stripL
  rw [List.dropWhile_append_of_pos h1]
  rw [List.cons_append, List.dropWhile_cons_of_neg (by simp [ha]), ← List.cons_append]
  rw [List.reverse_append,
    List.dropWhile_append_of_pos (fun d hd => h2 d (List.mem_reverse.mp hd))]
  rw [hr, List.dropWhile_cons_of_neg (by simp [hb]), ← hr, List.reverse_reverse]

theorem not_startsWithL (l p : List Char) (i : Nat) (hi : i < p.length)
    (hne : l[i]? ≠ p[i]?) : startsWithL l p = false := by
  have hnp : ¬ (l.take p.length = p) := by
    intro h
    apply hne
    rw [← h, List.getElem?_take_of_lt hi]
  simpa [startsWithL] using hnp

theorem startsWithL_self_append (p l : List Char) : startsWithL (p ++ l) p = true := by
  unfold startsWithL
  rw [List.take_left]
  simp

theorem endsWithL_append_self (l p : List Char) : endsWithL (l ++ p) p = true := by
  unfold endsWithL
  have hl : (l ++ p).length - p.length = l.length := by
    rw [List.length_append]; omega
  rw [hl, List.drop_left]
  simp

theorem dropEnd_append_self (l p : List Char) : dropEnd (l ++ p) p.length = l := by
  unfold dropEnd
  have hl : (l ++ p).length - p.length = l.length := by
    rw [List.length_append]; omega
  rw [hl, List.take_left]

/-- C9: for every model reply of the form `ws ++ tag ++ body ++ "```" ++ ws`
where the tag is `"```json"` or `"```"` and the body starts like a JSON
document (first character whitespace or a JSON start character), the
normalizer hands the parser exactly the stripped unfenced body, and
`analyze_product_image` returns exactly the object the parser yields on
that body. -/
theorem c9_fence_stripping (ws1 ws2 tag : List Char)
    (h1 : ∀ d ∈ ws1, isPyWs d = true) (h2 : ∀ d ∈ ws2, isPyWs d = true)
    (htag : tag = fenceJsonB ∨ tag = fenceB)
    (c : Char) (bt : List Char)
    (hc : isPyWs c = true ∨ jsonStartChar c = true) :
    stripFencesL (ws1 ++ ((tag ++ ((c :: bt) ++ fenceB)) ++ ws2)) = c :: bt ∧
    parserInput (String.mk (ws1 ++ ((tag ++ ((c :: bt) ++ fenceB)) ++ ws2))) =
      pyStripS (String.mk (c :: bt)) ∧
    (∀ (apiKey : String) (jparse : String → Option Json) (j : Json), apiKey ≠ "" →
      jparse (pyStripS (String.mk (c :: bt))) = some j →
      (analyze_product_image apiKey (Except.ok ())
        (Except.ok (String.mk (ws1 ++ ((tag ++ ((c :: bt) ++ fenceB)) ++ ws2))))
        jparse).outcome = AnalyzeOutcome.returns j) := by
  have hcb : c ≠ btick ∧ c ≠ 'j' := by
    constructor <;> intro h <;> subst h <;> rcases hc with h | h
    · exact absurd h (by decide)
    · exact absurd h (by decide)
    · exact absurd h (by decide)
    · exact absurd h (by decide)
  have key : stripFencesL (ws1 ++ ((tag ++ ((c :: bt) ++ fenceB)) ++ ws2)) = c :: bt := by
    have hstrip : stripL (ws1 ++ ((tag ++ ((c :: bt) ++ fenceB)) ++ ws2)) =
        tag ++ ((c :: bt) ++ fenceB) := by
      apply stripL_sandwich _ _ _ h1 h2
      · intro a ha
        rcases htag with h | h <;> subst h
        · rw [fenceJsonB_eq] at ha
          simp at ha
          subst ha
          decide
        · rw [fenceB_eq] at ha
          simp at ha
          subst ha
          decide
      · intro a ha
        rw [List.reverse_append, List.reverse_append, fenceB_eq] at ha
        simp at ha
        subst ha
        decide
      · rcases htag with h | h <;> subst h <;> simp [fenceJsonB_eq, fenceB_eq]
    have e3 : endsWithL ((c :: bt) ++ fenceB) fenceB = true := endsWithL_append_self _ _
    have d3e : dropEnd ((c :: bt) ++ fenceB) 3 = c :: bt := by
      have h3 : fenceB.length = 3 := by decide
      rw [← h3]
      exact dropEnd_append_self _ _
    have s2 : startsWithL ((c :: bt) ++ fenceB) fenceB = false := by
      apply not_startsWithL _ _ 0 (by decide)
      rw [List.cons_append, List.getElem?_cons_zero,
        show fenceB[0]? = some btick from by decide]
      simp [hcb.1]
    rcases htag with h | h <;> subst h
    · have s1 : startsWithL (fenceJsonB ++ ((c :: bt) ++ fenceB)) fenceJsonB = true :=
        startsWithL_self_append _ _
      have d7 : (fenceJsonB ++ ((c :: bt) ++ fenceB)).drop 7 = (c :: bt) ++ fenceB := by
        have h7 : fenceJsonB.length = 7 := by decide
        rw [← h7, List.drop_left]
      simp only [stripFencesL]
      rw [hstrip]
      simp only [List.cons_append] at s1 d7 s2 e3 d3e ⊢
      simp [s1, d7, s2, e3, d3e]
    · have s1 : startsWithL (fenceB ++ ((c :: bt) ++ fenceB)) fenceJsonB = false := by
        apply not_startsWithL _ _ 3 (by decide)
        rw [List.getElem?_append_right (by decide : fenceB.length ≤ 3),
          show (3 : Nat) - fenceB.length = 0 from by decide,
          List.cons_append, List.getElem?_cons_zero,
          show fenceJsonB[3]? = some 'j' from by decide]
        simp [hcb.2]
      have s2' : startsWithL (fenceB ++ ((c :: bt) ++ fenceB)) fenceB = true :=
        startsWithL_self_append _ _
      have d3 : (fenceB ++ ((c :: bt) ++ fenceB)).drop 3 = (c :: bt) ++ fenceB := by
        have h3 : fenceB.length = 3 := by decide
        rw [← h3, List.drop_left]
      simp only [stripFencesL]
      rw [hstrip]
      simp only [List.cons_append] at s1 s2' d3 s2 e3 d3e ⊢
      simp [s1, s2', d3, s2, e3, d3e]
  have conj2 : parserInput (String.mk (ws1 ++ ((tag ++ ((c :: bt) ++ fenceB)) ++ ws2))) =
      pyStripS (String.mk (c :: bt)) := congrArg (fun l => String.mk (stripL l)) key
  refine ⟨key, conj2, ?_⟩
  intro apiKey jparse j hk hp
  unfold analyze_product_image
  rw [if_neg hk]
  dsimp only
  rw [conj2, hp]

/-- C9 witness: the theorem at the concrete reply
`" ```json null``` \n"` (tagged fence around the JSON body `null`). -/
theorem c9_witness :
    stripFencesL ([' '] ++ ((fenceJsonB ++ ((['n', 'u', 'l', 'l']) ++ fenceB)) ++ ['\n'])) =
      ['n', 'u', 'l', 'l'] ∧
    parserInput (String.mk ([' '] ++ ((fenceJsonB ++ ((['n', 'u', 'l', 'l']) ++ fenceB)) ++ ['\n']))) =
      pyStripS (String.mk ['n', 'u', 'l', 'l']) ∧
    (∀ (apiKey : String) (jparse : String → Option Json) (j : Json), apiKey ≠ "" →
      jparse (pyStripS (String.mk ['n', 'u', 'l', 'l'])) = some j →
      (analyze_product_image apiKey (Except.ok ())
        (Except.ok (String.mk ([' '] ++ ((fenceJsonB ++ ((['n', 'u', 'l', 'l']) ++ fenceB)) ++ ['\n']))))
        jparse).outcome = AnalyzeOutcome.returns j) :=
  c9_fence_stripping [' '] ['\n'] fenceJsonB (by decide) (by decide) (Or.inl rfl)
    'n' ['u', 'l', 'l'] (Or.inr (by decide))

/-- C10 witness: the theorem at a concrete successful generation. -/
theorem c10_witness :
    (⟨1, "t", "d", "ok", some "base64", some "data:image/png;base64,AQ==", none⟩ :
        GenerationResult).type ≠ some "url" ∧
    ((⟨1, "t", "d", "ok", some "base64", some "data:image/png;base64,AQ==", none⟩ :
        GenerationResult).status = "ok" →
      (⟨1, "t", "d", "ok", some "base64", some "data:image/png;base64,AQ==", none⟩ :
        GenerationResult).type = some "base64" ∧
      ∃ tail, (⟨1, "t", "d", "ok", some "base64", some "data:image/png;base64,AQ==", none⟩ :
        GenerationResult).data = some ("data:image/png;base64," ++ tail)) :=
  c10_ok_results_are_base64 "k" (Except.ok ()) (Except.ok ()) [⟨"t", "d"⟩]
    (fun _ => CallOutcome.response (some ⟨[⟨"STOP",
        some ⟨some [⟨some ⟨some (ImageData.bytesD [1])⟩⟩]⟩⟩]⟩))
    [⟨1, "t", "d", "ok", some "base64", some "data:image/png;base64,AQ==", none⟩]
    rfl
    ⟨1, "t", "d", "ok", some "base64", some "data:image/png;base64,AQ==", none⟩
    (by decide)

end App
